/-
Verification of the Book API record pipeline (routes.py / models.py).

The collection handed to every endpoint by the storage layer is modelled as
a `List Book`; SQLAlchemy's `Book.query.all()` becomes the list itself.
Python runtime behaviour is modelled faithfully:
  * `None < int`, `None > int`, `None < None` raise `TypeError`, so every
    comparison on the optional `year` column goes through `Except PyErr`;
  * `getattr` returns the five mapped columns; the open-ended set of
    attributes the instance inherits from `db.Model` (query, metadata,
    `__tablename__`, ...) is a parameter of the model, and a name the
    runtime does not expose raises `AttributeError`;
  * `functools.reduce` without an initial value is a strict left fold over
    a non-empty list;
  * `sorted(..., key=...)` is a stable sort on the key, modelled by a
    stable insertion sort whose comparisons run in `Except PyErr`;
  * JSON objects produced by the endpoints are association lists
    `List (String × PyVal)` in field order.
-/

import Mathlib

/-- Python exceptions that the modelled code can raise. -/
inductive PyErr where
  | typeError
  | attributeError
deriving DecidableEq, Repr

/-- Python values appearing in records and JSON payloads: integers,
strings, and `None`.  Python `==` across different types is `False`. -/
inductive PyVal where
  | int (i : Int)
  | str (s : String)
  | null
deriving DecidableEq, Repr

/-- Python `==` on `PyVal`: equal only within the same type; `None == None`. -/
def pyEq : PyVal → PyVal → Bool
  | .int a, .int b => a == b
  | .str a, .str b => a == b
  | .null, .null => true
  | _, _ => false

/-- The `Book` model from models.py: `genre` and `year` are nullable columns. -/
structure Book where
  id : Int
  title : String
  author : String
  genre : Option String
  year : Option Int
deriving DecidableEq, Repr

/-- Python `str.upper()` (ASCII, as used on the titles in routes.py). -/
def pyUpper (s : String) : String := ⟨s.data.map Char.toUpper⟩

/-- Python `str.lower()` (ASCII, as used on the author token in routes.py). -/
def pyLower (s : String) : String := ⟨s.data.map Char.toLower⟩

/-- Python `<` on two optional ints: raises `TypeError` unless both are ints. -/
def pyLtOpt : Option Int → Option Int → Except PyErr Bool
  | some a, some b => .ok (decide (a < b))
  | _, _ => .error .typeError

/-- Python `x > n` where `x` is an optional int and `n` an int literal:
raises `TypeError` when `x` is `None`. -/
def pyGtOpt : Option Int → Int → Except PyErr Bool
  | some a, n => .ok (decide (n < a))
  | none, _ => .error .typeError

/-- `list(filter(p, l))` where the predicate may raise: elements are tested
left to right and the first exception aborts the whole call. -/
def filterE (p : α → Except PyErr Bool) : List α → Except PyErr (List α)
  | [] => .ok []
  | x :: xs => do
    let b ← p x
    let rest ← filterE p xs
    pure (if b then x :: rest else rest)

/-- `validate_data` from routes.py: the returned validator checks only that
every required field name is a key of the payload mapping. -/
def validate_data (required_fields : List String) (data : List (String × PyVal)) : Bool :=
  required_fields.all (fun f => data.any (fun kv => kv.fst == f))

/-- `validate_book_data = validate_data(["title", "author"])` from routes.py. -/
def validate_book_data (data : List (String × PyVal)) : Bool :=
  validate_data ["title", "author"] data

/-- The left fold of `reduce(lambda a, b: a if a.year < b.year else b, books)`
from `get_earliest_book`, with `a` the accumulator. -/
def earliestFold : Book → List Book → Except PyErr Book
  | a, [] => .ok a
  | a, b :: rest => do
    let lt ← pyLtOpt a.year b.year
    earliestFold (if lt then a else b) rest

/-- Outcome of the `/books/earliest` endpoint: the 404 "No books found"
response, an unhandled Python exception, or the reduced record. -/
inductive EarliestResult where
  | noBooks
  | raised (e : PyErr)
  | book (b : Book)
deriving DecidableEq, Repr

/-- `get_earliest_book` from routes.py: 404 on an empty collection, else the
left-fold reduction over all records (year comparisons may raise). -/
def get_earliest_book : List Book → EarliestResult
  | [] => .noBooks
  | b :: rest =>
    match earliestFold b rest with
    | .ok r => .book r
    | .error e => .raised e

/-- `get_books_count` from routes.py: `reduce(lambda acc, _: acc + 1, books, 0)`. -/
def get_books_count (books : List Book) : Nat :=
  books.foldl (fun acc _ => acc + 1) 0

/-- SQL `Book.year BETWEEN start AND end` as used by `get_books_by_year_range`:
inclusive on both ends, `NULL` year never matches. -/
def yearBetweenB (s e : Int) (b : Book) : Bool :=
  match b.year with
  | some y => decide (s ≤ y) && decide (y ≤ e)
  | none => false

/-- The database filter step of `get_books_by_year_range`. -/
def yearRangeFilter (s e : Int) (books : List Book) : List Book :=
  books.filter (yearBetweenB s e)

/-- Stable ascending insertion on the `year` key, comparisons as in Python
(`key(y) < key(x)` keeps `y` in front; ties keep the earlier element first). -/
def insertAscE (x : Book) : List Book → Except PyErr (List Book)
  | [] => .ok [x]
  | y :: ys => do
    let lt ← pyLtOpt y.year x.year
    if lt then do
      let rest ← insertAscE x ys
      pure (y :: rest)
    else
      pure (x :: y :: ys)

/-- `sorted(books, key=lambda x: x.year)`: stable ascending sort whose key
comparisons may raise on a `None` year. -/
def sortAscE : List Book → Except PyErr (List Book)
  | [] => .ok []
  | x :: xs => do
    let s ← sortAscE xs
    insertAscE x s

/-- Stable descending insertion on the `year` key (ties keep input order). -/
def insertDescE (x : Book) : List Book → Except PyErr (List Book)
  | [] => .ok [x]
  | y :: ys => do
    let lt ← pyLtOpt x.year y.year
    if lt then do
      let rest ← insertDescE x ys
      pure (y :: rest)
    else
      pure (x :: y :: ys)

/-- `sorted(books, key=lambda book: book.year, reverse=True)` from
`get_books_sorted`. -/
def sortDescE : List Book → Except PyErr (List Book)
  | [] => .ok []
  | x :: xs => do
    let s ← sortDescE xs
    insertDescE x s

/-- JSON value of a nullable integer column. -/
def optIntVal : Option Int → PyVal
  | some i => .int i
  | none => .null

/-- JSON value of a nullable string column. -/
def optStrVal : Option String → PyVal
  | some s => .str s
  | none => .null

/-- The output dictionary of `get_books_by_year_range`: id, title, author and
genre only — the `year` key is not emitted. -/
def bookProjection (b : Book) : List (String × PyVal) :=
  [("id", .int b.id), ("title", .str b.title),
   ("author", .str b.author), ("genre", optStrVal b.genre)]

/-- `get_books_by_year_range` from routes.py: SQL `BETWEEN` filter, Python
sort ascending by year, then projection to id/title/author/genre. -/
def get_books_by_year_range (s e : Int) (books : List Book) :
    Except PyErr (List (List (String × PyVal))) := do
  let sortedBooks ← sortAscE (yearRangeFilter s e books)
  pure (sortedBooks.map bookProjection)

/-- Response body of `/books/summary`. -/
structure SummaryOut where
  titles : List String
  book_count : Nat
deriving DecidableEq, Repr

/-- The `/books/summary` pipeline with the year bound as a parameter
(the source hard-codes the literal `1800`, see `get_books_summary`):
`filter(lambda book: book.year > min_year)`, then uppercase titles, then
`reduce(lambda acc, _: acc + 1, ..., 0)`. -/
def books_summary (min_year : Int) (books : List Book) : Except PyErr SummaryOut := do
  let recent ← filterE (fun b => pyGtOpt b.year min_year) books
  pure ⟨recent.map (fun b => pyUpper b.title),
        recent.foldl (fun acc _ => acc + 1) 0⟩

/-- `get_books_summary` from routes.py, with the source's literal `1800`. -/
def get_books_summary (books : List Book) : Except PyErr SummaryOut :=
  books_summary 1800 books

/-- Response body of `/books/summary/<author>`. -/
structure AuthorSummary where
  titles : List String
  total_books : Nat
deriving DecidableEq, Repr

/-- The filtering step of `get_books_summary_author`:
`books if author.lower() == "all" else filter(lambda b: b.author == author)`. -/
def grouped_by_author (author : String) (books : List Book) : List Book :=
  if pyLower author == "all" then books
  else books.filter (fun b => b.author == author)

/-- `get_books_summary_author` from routes.py. -/
def get_books_summary_author (author : String) (books : List Book) : AuthorSummary :=
  let filtered := grouped_by_author author books
  ⟨filtered.map (fun b => pyUpper b.title),
   filtered.foldl (fun acc _ => acc + 1) 0⟩

/-- `get_books_sorted` from routes.py: stable descending sort by year, then
projection to title and year. -/
def get_books_sorted (books : List Book) :
    Except PyErr (List (List (String × PyVal))) := do
  let s ← sortDescE books
  pure (s.map (fun b => [("title", PyVal.str b.title), ("year", optIntVal b.year)]))

/-- Sum of the non-null years of a collection. -/
def sumYears (books : List Book) : Int :=
  (books.filterMap Book.year).foldl (· + ·) 0

/-- Number of records with a non-null year. -/
def countYears (books : List Book) : Nat :=
  (books.filterMap Book.year).length

/-- Modelled from the spec: the repository has no `average_year`
implementation under src/ (only the spec's Aggregator contract describes
it): "sum of `year` over records with non-null `year`, divided by that
count; yields `0` (not an error, not NaN) when the count is zero". -/
def average_year (books : List Book) : Rat :=
  if countYears books = 0 then 0
  else (sumYears books : Rat) / (countYears books : Rat)

/-- The dynamic filter criteria of `create_filter`: one field name and one
comparison value. -/
structure Criteria where
  field : String
  value : PyVal
deriving DecidableEq, Repr

/-- What `getattr` can yield on a `Book` instance: either a column-like
value, or some other runtime object (a query descriptor, a metadata
registry, an instance state, ...) that Python `==` compares unequal to
every JSON value. -/
inductive AttrVal where
  | val (v : PyVal)
  | obj
deriving DecidableEq, Repr

/-- Python `==` between an attribute and a criteria value: a non-value
runtime object never equals an int, a string or `None`. -/
def pyEqAttr : AttrVal → PyVal → Bool
  | .val v, w => pyEq v w
  | .obj, _ => false

/-- Python `getattr(book, f)` on a `Book` instance.  The five mapped
columns of models.py return their values.  Beyond them, a Flask-SQLAlchemy
`db.Model` instance exposes an open-ended set of inherited attributes
(`query`, `metadata`, `registry`, `__tablename__`, `_sa_instance_state`,
dunders, ...) that the repository does not define; that set is the
parameter `attrs`, mapping each remaining name to its attribute when the
runtime exposes one and to `none` (an `AttributeError`) otherwise. -/
def getattrBook (attrs : String → Option AttrVal) (b : Book) (f : String) :
    Except PyErr AttrVal :=
  if f = "id" then .ok (.val (.int b.id))
  else if f = "title" then .ok (.val (.str b.title))
  else if f = "author" then .ok (.val (.str b.author))
  else if f = "genre" then .ok (.val (optStrVal b.genre))
  else if f = "year" then .ok (.val (optIntVal b.year))
  else
    match attrs f with
    | some a => .ok a
    | none => .error .attributeError

/-- One representative instantiation of the inherited-attribute map:
`query`, `metadata`, `registry` and `_sa_instance_state` are runtime
objects, `__tablename__` is the auto-generated table name "book", and any
other non-column name raises.  Closed evaluations use it; the universal
theorems hold for every choice of the map. -/
def sqlalchemyAttrs : String → Option AttrVal := fun f =>
  if f = "query" ∨ f = "metadata" ∨ f = "registry" ∨ f = "_sa_instance_state" then
    some .obj
  else if f = "__tablename__" then some (.val (.str "book"))
  else none

/-- `create_filter` from routes.py: the closure
`lambda book: getattr(book, criteria["field"]) == criteria["value"]`. -/
def create_filter (attrs : String → Option AttrVal) (c : Criteria) (b : Book) :
    Except PyErr Bool := do
  let v ← getattrBook attrs b c.field
  pure (pyEqAttr v c.value)

/-- The list comprehension `[book for book in books if filter_func(book)]`
of `filter_books_endpoint`, for an arbitrary criteria. -/
def filter_books_with (attrs : String → Option AttrVal) (c : Criteria)
    (books : List Book) : Except PyErr (List Book) :=
  filterE (create_filter attrs c) books

/-- The three-record collection of the spec's test scenarios. -/
def scenarioBooks : List Book :=
  [⟨1, "a", "X", none, some 1750⟩,
   ⟨2, "b", "X", none, some 1850⟩,
   ⟨3, "c", "Y", none, some 1900⟩]

/-! ### Helper lemmas -/

lemma foldl_count (l : List α) : ∀ n : Nat, l.foldl (fun acc _ => acc + 1) n = n + l.length := by
  induction l with
  | nil => intro n; simp
  | cons x xs ih => intro n; simp only [List.foldl, List.length_cons, ih]; omega

lemma filterE_ok_of_total (p : α → Except PyErr Bool) (q : α → Bool) :
    ∀ l : List α, (∀ x ∈ l, p x = .ok (q x)) → filterE p l = .ok (l.filter q) := by
  intro l
  induction l with
  | nil => intro _; rfl
  | cons x xs ih =>
    intro h
    have hx := h x (by simp)
    have hxs := ih (fun y hy => h y (by simp [hy]))
    simp only [filterE, hx, hxs, List.filter_cons, Bind.bind, Except.bind, Pure.pure, Except.pure]

lemma getLast?_cons_of_ne_nil (a : α) {l : List α} (h : l ≠ []) :
    (a :: l).getLast? = l.getLast? := by
  cases l with
  | nil => exact absurd rfl h
  | cons b bs => simp [List.getLast?_cons_cons]

lemma yearBetweenB_eq_true (s e : Int) (b : Book) :
    yearBetweenB s e b = true ↔ ∃ y, b.year = some y ∧ s ≤ y ∧ y ≤ e := by
  cases hy : b.year with
  | none => simp [yearBetweenB, hy]
  | some y => simp [yearBetweenB, hy]

lemma yearRangeFilter_isSome (s e : Int) (books : List Book) :
    ∀ b ∈ yearRangeFilter s e books, b.year.isSome := by
  intro b hb
  rw [yearRangeFilter, List.mem_filter] at hb
  obtain ⟨y, hy, _⟩ := (yearBetweenB_eq_true s e b).mp hb.2
  simp [hy]

lemma insertAscE_ok (x : Book) (l : List Book) (hx : x.year.isSome)
    (hl : ∀ b ∈ l, b.year.isSome) :
    ∃ r, insertAscE x l = .ok r ∧ ∀ b, b ∈ r ↔ b = x ∨ b ∈ l := by
  induction l with
  | nil => exact ⟨[x], rfl, by simp⟩
  | cons y ys ih =>
    obtain ⟨yy, hyy⟩ := Option.isSome_iff_exists.mp (hl y (by simp))
    obtain ⟨yx, hyx⟩ := Option.isSome_iff_exists.mp hx
    obtain ⟨r, hr, hmem⟩ := ih (fun b hb => hl b (by simp [hb]))
    by_cases hc : yy < yx
    · refine ⟨y :: r, ?_, ?_⟩
      · simp [insertAscE, pyLtOpt, hyy, hyx, hc, hr, Bind.bind, Except.bind, Pure.pure, Except.pure]
      · intro b
        simp only [List.mem_cons, hmem b]
        tauto
    · refine ⟨x :: y :: ys, ?_, by intro b; simp [List.mem_cons]⟩
      simp [insertAscE, pyLtOpt, hyy, hyx, hc, Bind.bind, Except.bind, Pure.pure, Except.pure]

lemma sortAscE_ok (l : List Book) (hl : ∀ b ∈ l, b.year.isSome) :
    ∃ r, sortAscE l = .ok r ∧ ∀ b, b ∈ r ↔ b ∈ l := by
  induction l with
  | nil => exact ⟨[], rfl, by simp⟩
  | cons x xs ih =>
    obtain ⟨s, hs, hsm⟩ := ih (fun b hb => hl b (by simp [hb]))
    have hx : x.year.isSome := hl x (by simp)
    have hsall : ∀ b ∈ s, b.year.isSome := fun b hb => hl b (by simp [(hsm b).mp hb])
    obtain ⟨r, hr, hrm⟩ := insertAscE_ok x s hx hsall
    refine ⟨r, ?_, ?_⟩
    · simp [sortAscE, hs, hr, Bind.bind, Except.bind, Pure.pure, Except.pure]
    · intro b
      rw [hrm b]
      simp [hsm b]

/-! ### Claim C2 -/

/-- Claim C2 counterexample: a payload whose `title` value is the empty
string still validates, although the claim demands that full-record
validation return false on an empty `title`. -/
theorem claimC2_counterexample :
    validate_book_data [("title", PyVal.str ""), ("author", PyVal.str "X")] = true := by rfl

/-- Claim C2 (amended): `validate_data` returns true iff every required
field name is a key of the mapping — there is no emptiness check on
`title` or `author` — and an empty required-field list always validates
true. -/
theorem claimC2_validate_presence_only (required : List String)
    (data : List (String × PyVal)) :
    (validate_data required data = true ↔ ∀ f ∈ required, ∃ v, (f, v) ∈ data) ∧
    validate_data [] data = true := by
  constructor
  · rw [validate_data, List.all_eq_true]
    constructor
    · intro h f hf
      obtain ⟨⟨k, v⟩, hkv, hk⟩ := List.any_eq_true.mp (h f hf)
      rw [beq_iff_eq] at hk
      exact ⟨v, by rw [← hk]; exact hkv⟩
    · intro h f hf
      obtain ⟨v, hv⟩ := h f hf
      exact List.any_eq_true.mpr ⟨(f, v), hv, by simp⟩
  · rfl

/-- Witness for C2 at a concrete payload. -/
theorem claimC2_witness :
    validate_data ["title"] [("title", PyVal.str "t")] = true :=
  (claimC2_validate_presence_only ["title"] [("title", PyVal.str "t")]).1.mpr
    (by intro f hf; rw [List.mem_singleton] at hf; exact ⟨PyVal.str "t", by rw [hf]; simp⟩)

/-! ### Claim C4 -/

/-- Claim C4 counterexample: a non-empty collection in which no record has
a year does not produce the `EmptyCollection` (404) error — the single
null-year record is returned as the earliest book. -/
theorem claimC4_counterexample :
    get_earliest_book [⟨7, "t", "A", none, none⟩] = .book ⟨7, "t", "A", none, none⟩ := by rfl

/-- Claim C4 (amended): `get_earliest_book` answers the 404 "No books
found" error exactly when the collection is empty (records without a year
are not detected), and `get_books_count` on an empty collection returns
the non-error result 0. -/
theorem claimC4_empty_only (books : List Book) :
    (get_earliest_book books = .noBooks ↔ books = []) ∧ get_books_count [] = 0 := by
  refine ⟨⟨?_, ?_⟩, rfl⟩
  · intro h
    cases books with
    | nil => rfl
    | cons b rest =>
      exfalso
      cases hfold : earliestFold b rest with
      | ok r =>
        rw [get_earliest_book, hfold] at h
        exact EarliestResult.noConfusion h
      | error e =>
        rw [get_earliest_book, hfold] at h
        exact EarliestResult.noConfusion h
  · rintro rfl
    rfl

/-- Witness for C4 at the empty collection. -/
theorem claimC4_witness : get_earliest_book [] = .noBooks ∧ get_books_count [] = 0 :=
  ⟨(claimC4_empty_only []).1.mpr rfl, (claimC4_empty_only []).2⟩

/-! ### Claim C7 -/

/-- Claim C7: `grouped_by_author` returns the whole collection when the
author token lowercased equals the sentinel "all" (case-insensitive
match), and otherwise keeps exactly the records whose `author` equals the
token case-sensitively. -/
theorem claimC7_grouped_by_author (author : String) (books : List Book) :
    (pyLower author = "all" → grouped_by_author author books = books) ∧
    (pyLower author ≠ "all" →
      ∀ b, b ∈ grouped_by_author author books ↔ b ∈ books ∧ b.author = author) := by
  constructor
  · intro h
    simp [grouped_by_author, h]
  · intro h b
    rw [grouped_by_author, if_neg (by simpa using h), List.mem_filter]
    simp

/-- Witness for C7: the spec scenario — the token "All" matches the
sentinel and yields all records, and "X" filters case-sensitively. -/
theorem claimC7_witness :
    grouped_by_author "All" scenarioBooks = scenarioBooks ∧
    (Book.mk 2 "b" "X" none (some 1850) ∈ grouped_by_author "X" scenarioBooks ↔
      Book.mk 2 "b" "X" none (some 1850) ∈ scenarioBooks ∧
      (Book.mk 2 "b" "X" none (some 1850)).author = "X") :=
  ⟨(claimC7_grouped_by_author "All" scenarioBooks).1 (by decide),
   (claimC7_grouped_by_author "X" scenarioBooks).2 (by decide) _⟩

/-! ### Claim C8 -/

/-- Claim C8 (spec-modelled): `average_year` is the sum of the non-null
years divided by their count, and 0 when that count is zero. -/
theorem claimC8_average_year (books : List Book) :
    (countYears books = 0 → average_year books = 0) ∧
    (countYears books ≠ 0 →
      average_year books * (countYears books : Rat) = (sumYears books : Rat)) := by
  constructor
  · intro h
    simp [average_year, h]
  · intro h
    have hz : ((countYears books : Rat)) ≠ 0 := by exact_mod_cast h
    rw [average_year, if_neg h, div_mul_cancel₀ _ hz]

/-- Witness for C8 at the scenario collection (total years 5500 over 3). -/
theorem claimC8_witness :
    countYears scenarioBooks ≠ 0 ∧
    average_year scenarioBooks * (countYears scenarioBooks : Rat) = (sumYears scenarioBooks : Rat) :=
  ⟨by decide, (claimC8_average_year scenarioBooks).2 (by decide)⟩

/-! ### Claim C3 -/

/-- Claim C3: the year-range filter keeps exactly the records whose year
`y` satisfies `start ≤ y ≤ end` (inclusive), excludes records with an
absent year, and an inverted range (`end < start`) makes the whole
endpoint return an empty result without raising. -/
theorem claimC3_year_range (s e : Int) (books : List Book) :
    (∀ b, b ∈ yearRangeFilter s e books ↔
      b ∈ books ∧ ∃ y, b.year = some y ∧ s ≤ y ∧ y ≤ e) ∧
    (e < s → get_books_by_year_range s e books = .ok []) := by
  constructor
  · intro b
    rw [yearRangeFilter, List.mem_filter, yearBetweenB_eq_true]
  · intro h
    have hnil : yearRangeFilter s e books = [] := by
      rw [yearRangeFilter, List.filter_eq_nil_iff]
      intro b _
      intro hb
      obtain ⟨y, _, hsy, hye⟩ := (yearBetweenB_eq_true s e b).mp hb
      omega
    rw [get_books_by_year_range, hnil]
    rfl

/-- Witness for C3: the spec scenario with the inverted range 1900..1800. -/
theorem claimC3_witness : get_books_by_year_range 1900 1800 scenarioBooks = .ok [] :=
  (claimC3_year_range 1900 1800 scenarioBooks).2 (by decide)

/-! ### Claim C10 -/

/-- Claim C10: the year-range endpoint succeeds (the survivors all carry a
year, so the Python sort cannot raise) and projects every surviving record
to exactly the keys id, title, author and genre — the `year` key, though
it drove the filter and the sort, is omitted from each output object. -/
theorem claimC10_projection (s e : Int) (books : List Book) :
    ∃ kept objs, sortAscE (yearRangeFilter s e books) = .ok kept ∧
      get_books_by_year_range s e books = .ok objs ∧
      objs = kept.map bookProjection ∧
      (∀ b, b ∈ kept ↔ b ∈ yearRangeFilter s e books) ∧
      ∀ o ∈ objs, o.map Prod.fst = ["id", "title", "author", "genre"] ∧
        "year" ∉ o.map Prod.fst := by
  obtain ⟨kept, hk, hkm⟩ := sortAscE_ok _ (yearRangeFilter_isSome s e books)
  refine ⟨kept, kept.map bookProjection, hk, ?_, rfl, hkm, ?_⟩
  · rw [get_books_by_year_range, hk]
    rfl
  · intro o ho
    obtain ⟨b, _, rfl⟩ := List.mem_map.mp ho
    refine ⟨rfl, ?_⟩
    rw [show (bookProjection b).map Prod.fst = ["id", "title", "author", "genre"] from rfl]
    decide

/-- Witness for C10 at the spec scenario range 1800..1900. -/
theorem claimC10_witness :
    ∃ kept objs, sortAscE (yearRangeFilter 1800 1900 scenarioBooks) = .ok kept ∧
      get_books_by_year_range 1800 1900 scenarioBooks = .ok objs ∧
      objs = kept.map bookProjection ∧
      (∀ b, b ∈ kept ↔ b ∈ yearRangeFilter 1800 1900 scenarioBooks) ∧
      ∀ o ∈ objs, o.map Prod.fst = ["id", "title", "author", "genre"] ∧
        "year" ∉ o.map Prod.fst :=
  claimC10_projection 1800 1900 scenarioBooks

/-! ### Claim C6 -/

/-- The total version of the summary filter predicate: strictly newer than
`min_year`, null years rejected. -/
def yearGtB (min_year : Int) (b : Book) : Bool :=
  match b.year with
  | some y => decide (min_year < y)
  | none => false

/-- Claim C6 counterexample: on a collection containing a record with a
null year the summary endpoint raises `TypeError` (Python `None > 1800`)
instead of returning a title list and count, so the claim's universal
quantification over every collection fails. -/
theorem claimC6_counterexample :
    get_books_summary [⟨9, "z", "Q", none, none⟩] = .error .typeError := by rfl

/-- Claim C6 (amended): on every collection whose records all carry a
year, the summary keeps exactly the records with `year > min_year`, maps
their titles to upper case in input order, and reports the surviving
count. -/
theorem claimC6_summary (min_year : Int) (books : List Book)
    (h : ∀ b ∈ books, b.year.isSome) :
    books_summary min_year books = .ok
      ⟨(books.filter (yearGtB min_year)).map (fun b => pyUpper b.title),
       (books.filter (yearGtB min_year)).length⟩ := by
  have hf : filterE (fun b => pyGtOpt b.year min_year) books =
      .ok (books.filter (yearGtB min_year)) := by
    refine filterE_ok_of_total _ _ books (fun b hb => ?_)
    obtain ⟨y, hy⟩ := Option.isSome_iff_exists.mp (h b hb)
    simp [pyGtOpt, yearGtB, hy]
  rw [books_summary, hf]
  simp only [Bind.bind, Except.bind, Pure.pure, Except.pure, foldl_count]
  simp

/-- Witness for C6: the spec scenario — min_year 1800 on the three-record
collection yields titles ["B", "C"] and count 2. -/
theorem claimC6_witness :
    (∀ b ∈ scenarioBooks, b.year.isSome) ∧
    books_summary 1800 scenarioBooks = .ok ⟨["B", "C"], 2⟩ := by
  refine ⟨by decide, ?_⟩
  rw [claimC6_summary 1800 scenarioBooks (by decide)]
  rfl

/-! ### Claim C5 -/

/-- Claim C5 counterexample: the summary's year filter is not total — on a
collection holding a null-year record, Python `None > 1800` raises a
`TypeError` instead of excluding the record. -/
theorem claimC5_counterexample :
    get_books_summary [⟨4, "d", "Z", none, some 1950⟩, ⟨10, "w", "Z", none, none⟩]
      = .error .typeError := by rfl

/-- Claim C5 (amended): only the SQL range filter excludes records with an
absent year; the summary filter, the descending year sort and the
earliest reduction all raise a `TypeError` on a collection pairing a
null-year record with an int-year record. -/
theorem claimC5_partial_totality :
    (∀ (s e : Int) (books : List Book) (b : Book),
        b ∈ yearRangeFilter s e books → b.year.isSome) ∧
    get_books_summary [⟨5, "e", "W", none, some 1900⟩, ⟨6, "f", "W", none, none⟩]
      = .error .typeError ∧
    get_books_sorted [⟨5, "e", "W", none, some 1900⟩, ⟨6, "f", "W", none, none⟩]
      = .error .typeError ∧
    get_earliest_book [⟨5, "e", "W", none, some 1900⟩, ⟨6, "f", "W", none, none⟩]
      = .raised .typeError :=
  ⟨fun s e books b hb => yearRangeFilter_isSome s e books b hb, by rfl, by rfl, by rfl⟩

/-- Witness for C5's universal part at a concrete surviving record. -/
theorem claimC5_witness :
    Book.mk 8 "g" "V" none (some 1850) ∈
      yearRangeFilter 1800 1900 [⟨8, "g", "V", none, some 1850⟩] ∧
    (Book.mk 8 "g" "V" none (some 1850)).year.isSome :=
  ⟨by decide, claimC5_partial_totality.1 1800 1900 [⟨8, "g", "V", none, some 1850⟩] _ (by decide)⟩

/-! ### Claim C9 -/

/-- Claim C9 counterexample: two criterion fields outside the allowed set
(author, genre, year, title) that raise no `UnknownField` error — the
column "id" silently filters by equality, and the inherited attribute
"query" exists on the instance, compares unequal to everything, and makes
the filter silently return an empty result. -/
theorem claimC9_counterexample :
    filter_books_with sqlalchemyAttrs ⟨"id", .int 1⟩ [⟨1, "a", "X", none, some 1750⟩]
      = .ok [⟨1, "a", "X", none, some 1750⟩] ∧
    filter_books_with sqlalchemyAttrs ⟨"query", .str "q"⟩ [⟨1, "a", "X", none, some 1750⟩]
      = .ok [] :=
  ⟨rfl, rfl⟩

/-- Claim C9 (amended): applying the filter never raises an `UnknownField`
configuration error.  For a criterion field outside the five model
columns, and for every instantiation of the inherited-attribute map: when
the runtime exposes no such attribute, touching the first record raises
`AttributeError`; when it exposes it as a non-value runtime object, the
comparison is always false and the filter silently returns an empty
result.  On an empty collection no field ever raises, and the column `id`
— outside the spec's allowed field set — is accepted silently and filters
by integer equality. -/
theorem claimC9_attribute_errors :
    (∀ (attrs : String → Option AttrVal) (c : Criteria) (b : Book) (rest : List Book),
        c.field ∉ (["id", "title", "author", "genre", "year"] : List String) →
        attrs c.field = none →
        filter_books_with attrs c (b :: rest) = .error .attributeError) ∧
    (∀ (attrs : String → Option AttrVal) (c : Criteria) (books : List Book),
        c.field ∉ (["id", "title", "author", "genre", "year"] : List String) →
        attrs c.field = some .obj →
        filter_books_with attrs c books = .ok []) ∧
    (∀ (attrs : String → Option AttrVal) (c : Criteria),
        filter_books_with attrs c [] = .ok []) ∧
    (∀ (attrs : String → Option AttrVal) (v : Int) (books : List Book),
        filter_books_with attrs ⟨"id", .int v⟩ books
          = .ok (books.filter (fun b => b.id == v))) := by
  refine ⟨?_, ?_, fun _ _ => rfl, ?_⟩
  · intro attrs c b rest h hnone
    simp only [List.mem_cons, not_or] at h
    obtain ⟨h1, h2, h3, h4, h5, _⟩ := h
    have hg : getattrBook attrs b c.field = .error .attributeError := by
      rw [getattrBook, if_neg h1, if_neg h2, if_neg h3, if_neg h4, if_neg h5, hnone]
    rw [filter_books_with, filterE]
    simp [create_filter, hg, Bind.bind, Except.bind]
  · intro attrs c books h hsome
    simp only [List.mem_cons, not_or] at h
    obtain ⟨h1, h2, h3, h4, h5, _⟩ := h
    have hq : filterE (create_filter attrs c) books
        = .ok (books.filter (fun _ => false)) := by
      refine filterE_ok_of_total _ _ books (fun b _ => ?_)
      have hg : getattrBook attrs b c.field = .ok .obj := by
        rw [getattrBook, if_neg h1, if_neg h2, if_neg h3, if_neg h4, if_neg h5, hsome]
      simp [create_filter, hg, pyEqAttr, Bind.bind, Except.bind, Pure.pure, Except.pure]
    rw [filter_books_with, hq]
    simp
  · intro attrs v books
    refine filterE_ok_of_total _ _ books (fun b _ => ?_)
    rfl

/-- Witness for C9's two error-side branches: the unexposed name
"publisher" raises `AttributeError`, the exposed runtime object
"metadata" yields a silent empty result. -/
theorem claimC9_witness :
    "publisher" ∉ (["id", "title", "author", "genre", "year"] : List String) ∧
    sqlalchemyAttrs "publisher" = none ∧
    filter_books_with sqlalchemyAttrs ⟨"publisher", PyVal.str "p"⟩
      [⟨1, "a", "X", none, some 1750⟩] = .error .attributeError ∧
    filter_books_with sqlalchemyAttrs ⟨"metadata", PyVal.str "m"⟩
      [⟨1, "a", "X", none, some 1750⟩] = .ok [] :=
  ⟨by decide, rfl,
   claimC9_attribute_errors.1 sqlalchemyAttrs ⟨"publisher", PyVal.str "p"⟩
     ⟨1, "a", "X", none, some 1750⟩ [] (by decide) rfl,
   claimC9_attribute_errors.2.1 sqlalchemyAttrs ⟨"metadata", PyVal.str "m"⟩
     [⟨1, "a", "X", none, some 1750⟩] (by decide) rfl⟩

/-! ### Claim C1 -/

lemma earliestFold_lastMin :
    ∀ (l : List Book) (a : Book) (ya : Int), a.year = some ya →
      (∀ b ∈ l, b.year.isSome) →
      ∃ r yr, earliestFold a l = .ok r ∧ r.year = some yr ∧
        (∀ b ∈ a :: l, ∀ yb, b.year = some yb → yr ≤ yb) ∧
        ((a :: l).filter (fun b => decide (b.year = some yr))).getLast? = some r := by
  intro l
  induction l with
  | nil =>
    intro a ya ha _
    refine ⟨a, ya, rfl, ha, ?_, ?_⟩
    · intro b hb yb hyb
      rw [List.mem_singleton] at hb
      subst hb
      rw [ha] at hyb
      exact le_of_eq (Option.some_injective _ hyb)
    · simp [List.filter_cons, ha]
  | cons b rest ih =>
    intro a ya ha hall
    obtain ⟨yb, hyb⟩ := Option.isSome_iff_exists.mp (hall b (by simp))
    have hrest : ∀ x ∈ rest, x.year.isSome := fun x hx => hall x (by simp [hx])
    by_cases hc : ya < yb
    · obtain ⟨r, yr, hfold, hyr, hbound, hlast⟩ := ih a ya ha hrest
      have hstep : earliestFold a (b :: rest) = earliestFold a rest := by
        simp [earliestFold, pyLtOpt, ha, hyb, hc, Bind.bind, Except.bind]
      have hya : yr ≤ ya := hbound a (List.mem_cons_self a rest) ya ha
      refine ⟨r, yr, hstep ▸ hfold, hyr, ?_, ?_⟩
      · intro x hx yx hyx
        rcases List.mem_cons.mp hx with h1 | hx2
        · exact hbound x (h1 ▸ List.mem_cons_self a rest) yx hyx
        rcases List.mem_cons.mp hx2 with h2 | h3
        · subst h2
          rw [hyb] at hyx
          have := Option.some_injective _ hyx
          omega
        · exact hbound x (List.mem_cons_of_mem a h3) yx hyx
      · have hpb : (decide (b.year = some yr)) = false := by
          simp only [decide_eq_false_iff_not, hyb]
          intro hcontr
          have := Option.some_injective _ hcontr
          omega
        have hfeq : (a :: b :: rest).filter (fun x => decide (x.year = some yr))
            = (a :: rest).filter (fun x => decide (x.year = some yr)) := by
          simp [List.filter_cons, hpb]
        rw [hfeq]
        exact hlast
    · obtain ⟨r, yr, hfold, hyr, hbound, hlast⟩ := ih b yb hyb hrest
      have hstep : earliestFold a (b :: rest) = earliestFold b rest := by
        simp [earliestFold, pyLtOpt, ha, hyb, hc, Bind.bind, Except.bind]
      have hyrb : yr ≤ yb := hbound b (List.mem_cons_self b rest) yb hyb
      have hbya : yb ≤ ya := by omega
      refine ⟨r, yr, hstep ▸ hfold, hyr, ?_, ?_⟩
      · intro x hx yx hyx
        rcases List.mem_cons.mp hx with h1 | hx2
        · subst h1
          rw [ha] at hyx
          have := Option.some_injective _ hyx
          omega
        · exact hbound x hx2 yx hyx
      · by_cases hpa : a.year = some yr
        · have hyaeq : ya = yr := by
            rw [ha] at hpa
            exact Option.some_injective _ hpa
          have hybeq : yb = yr := by omega
          have hfb : (b :: rest).filter (fun x => decide (x.year = some yr)) =
              b :: rest.filter (fun x => decide (x.year = some yr)) := by
            simp [List.filter_cons, hyb, hybeq]
          rw [List.filter_cons, if_pos (by simp [hpa])]
          rw [getLast?_cons_of_ne_nil _ (by rw [hfb]; simp)]
          exact hlast
        · rw [List.filter_cons, if_neg (by simp [hpa])]
          exact hlast

/-- Claim C1 counterexample: on two records that tie on the minimum year
the reduction `a if a.year < b.year else b` keeps the second record, not
the first — the claim's first-element-wins tie-break is the opposite of
the code's. -/
theorem claimC1_counterexample :
    get_earliest_book [⟨1, "a", "X", none, some 1750⟩, ⟨2, "b", "X", none, some 1750⟩]
      = .book ⟨2, "b", "X", none, some 1750⟩ ∧
    get_earliest_book [⟨1, "a", "X", none, some 1750⟩, ⟨2, "b", "X", none, some 1750⟩]
      ≠ .book ⟨1, "a", "X", none, some 1750⟩ := by
  exact ⟨rfl, by decide⟩

/-- Claim C1 (amended): for every non-empty collection of records that all
have a year, the earliest aggregation returns a record with the minimum
year, and on ties the LAST such record encountered in input order wins
(the fold `a if a.year < b.year else b` replaces the accumulator whenever
the new element's year is less than or equal). -/
theorem claimC1_earliest_last_minimal (books : List Book) (hne : books ≠ [])
    (hall : ∀ b ∈ books, b.year.isSome) :
    ∃ r yr, get_earliest_book books = .book r ∧ r.year = some yr ∧
      (∀ b ∈ books, ∀ yb, b.year = some yb → yr ≤ yb) ∧
      (books.filter (fun b => decide (b.year = some yr))).getLast? = some r := by
  cases books with
  | nil => exact absurd rfl hne
  | cons b rest =>
    obtain ⟨yb, hyb⟩ := Option.isSome_iff_exists.mp (hall b (by simp))
    obtain ⟨r, yr, hfold, hyr, hbound, hlast⟩ := earliestFold_lastMin rest b yb hyb
      (fun x hx => hall x (by simp [hx]))
    refine ⟨r, yr, ?_, hyr, hbound, hlast⟩
    rw [get_earliest_book, hfold]

/-- Witness for C1 at the spec's scenario collection, whose earliest is
the unique minimum, record id 1 (year 1750). -/
theorem claimC1_witness :
    scenarioBooks ≠ [] ∧
    ∃ r yr, get_earliest_book scenarioBooks = .book r ∧ r.year = some yr ∧
      (∀ b ∈ scenarioBooks, ∀ yb, b.year = some yb → yr ≤ yb) ∧
      (scenarioBooks.filter (fun b => decide (b.year = some yr))).getLast? = some r :=
  ⟨by decide, claimC1_earliest_last_minimal scenarioBooks (by decide) (by decide)⟩
